import Mathlib

/-!
Verification of the usage aggregation and metric-derivation engine of
`radosgw_usage_exporter.py` (class `RADOSGWCollector`).

The Python code is shallowly embedded as follows:

* JSON records are Lean structures.  A field is an `Option` exactly where the
  Python code tests for key presence (`'k' in rec`) before reading it, or where
  a schema variant can omit the key and the code's behaviour on the missing key
  matters; it is a plain field where the code reads it unconditionally (a record
  missing such a key would raise `KeyError`, which no analysed behaviour
  depends on beyond the places modelled with `Except` below).
* Python runtime faults (`KeyError` on a missing dict key, `TypeError` from
  subscripting or `in`-testing `None`, `NameError` from reading a never-assigned
  local) are modelled with `Except PyErr`.
* Python `dict`s that the code builds incrementally are modelled as
  insertion-ordered association lists (`Dict`), `collections.Counter` cells as
  a four-field structure (the code only ever updates the four fixed keys
  `ops`, `successful_ops`, `bytes_sent`, `bytes_received`).
* `prometheus_client` metric families are modelled as a flat, append-only list
  of samples tagged with the family's key in `self._prometheus_metrics`;
  `add_metric(labels, v)` appends one sample.  Metric values are integers
  (Python booleans count as 0/1).
* The module-level toggles `SKIP_DELETED_BUCKET` / `SKIP_DELETED_USER` and the
  configured `cluster_name` are passed as parameters.
* The wall-clock `scrape_duration_seconds` sample and the HTTP client are out
  of scope; the results of the five admin-API fetches are inputs (`none`
  models the client returning no data).
-/

/-- Python runtime faults that the modelled code can raise. -/
inductive PyErr where
  | keyError
  | typeError
  | nameError
deriving DecidableEq, Repr

/-- An insertion-ordered Python `dict` with string keys. -/
abbrev Dict (α : Type) := List (String × α)

/-- Lookup `d[k]`: first binding of `k`, if any. -/
def dget {α : Type} : Dict α → String → Option α
  | [], _ => none
  | (k', v) :: rest, k => if k' = k then some v else dget rest k

/-- Python `if k not in d: d[k] = v` — keep an existing binding, else append one. -/
def dsetdefault {α : Type} (d : Dict α) (k : String) (v : α) : Dict α :=
  if (dget d k).isSome then d else d ++ [(k, v)]

/-- In-place mutation `d[k] = f d[k]` of an existing binding (no-op when the
key is absent; every use site establishes presence first, as the Python code
does with its `not in` checks). -/
def dmodify {α : Type} (d : Dict α) (k : String) (f : α → α) : Dict α :=
  d.map fun kv => if kv.1 = k then (kv.1, f kv.2) else kv

/-- One element of a `categories` list in a usage entry or usage summary:
`{category, ops, successful_ops, bytes_sent, bytes_received}`. -/
structure CategoryRec where
  category : String
  ops : Int
  successful_ops : Int
  bytes_sent : Int
  bytes_received : Int
deriving DecidableEq, Repr

/-- The value of one `collections.Counter` cell of `usage_dict`
(`_get_usage` only ever updates these four keys, in this order). -/
structure CatCounters where
  ops : Int
  successful_ops : Int
  bytes_sent : Int
  bytes_received : Int
deriving DecidableEq, Repr

def CatCounters.zero : CatCounters := ⟨0, 0, 0, 0⟩

def CatCounters.add (a b : CatCounters) : CatCounters :=
  ⟨a.ops + b.ops, a.successful_ops + b.successful_ops,
   a.bytes_sent + b.bytes_sent, a.bytes_received + b.bytes_received⟩

instance : Zero CatCounters := ⟨CatCounters.zero⟩

instance : Add CatCounters := ⟨CatCounters.add⟩

instance : AddCommMonoid CatCounters where
  add_assoc a b c := by
    show CatCounters.add (CatCounters.add a b) c = CatCounters.add a (CatCounters.add b c)
    simp only [CatCounters.add, CatCounters.mk.injEq]
    refine ⟨?_, ?_, ?_, ?_⟩ <;> ring
  zero_add a := by
    show CatCounters.add CatCounters.zero a = a
    cases a; simp [CatCounters.add, CatCounters.zero]
  add_zero a := by
    show CatCounters.add a CatCounters.zero = a
    cases a; simp [CatCounters.add, CatCounters.zero]
  add_comm a b := by
    show CatCounters.add a b = CatCounters.add b a
    simp only [CatCounters.add, CatCounters.mk.injEq]
    refine ⟨?_, ?_, ?_, ?_⟩ <;> ring
  nsmul := nsmulRec

/-- The four counter contributions of one `categories` element
(`c.update({...})` in `_get_usage`, lines 477-480). -/
def CategoryRec.counters (c : CategoryRec) : CatCounters :=
  ⟨c.ops, c.successful_ops, c.bytes_sent, c.bytes_received⟩

/-- The `bucket['categories']` scan of `_skip_bucket` (lines 404-412): start both
counts at `-1`, then let the `create_bucket` / `delete_bucket` entries
overwrite them (later entries win). -/
def bucketLifecycleCounts (cats : List CategoryRec) : Int × Int :=
  cats.foldl
    (fun cd c =>
      if c.category = "create_bucket" then (c.successful_ops, cd.2)
      else if c.category = "delete_bucket" then (cd.1, c.successful_ops)
      else cd)
    (-1, -1)

/-- Predicate `_skip_bucket` (lines 400-420), as a function of the toggle
`SKIP_DELETED_BUCKET` and of the record's `categories` field (`none` when the
record has no `'categories'` key, as bucket-stat records do not). -/
def skipBucket (toggle : Bool) (cats : Option (List CategoryRec)) : Bool :=
  if toggle = false then false
  else
    let cd := match cats with
      | some cs => bucketLifecycleCounts cs
      | none => (-1, -1)
    (cd.1 == -1 && decide (cd.2 > 0)) || cd.1 == 0 ||
      (decide (cd.1 ≥ 0) && decide (cd.2 - cd.1 ≥ 0))

/-- The `'owner' in rec … elif 'user' in rec` id extraction repeated verbatim
in `_skip_user` (lines 427-431), `_get_usage` (lines 448-452) and
`_update_usage_summary_metrics` (lines 516-520).  When neither key is present
the local is never assigned and its first read raises `NameError`. -/
def extractId (owner user : Option String) : Except PyErr String :=
  match owner with
  | some o => Except.ok o
  | none =>
    match user with
    | some u => Except.ok u
    | none => Except.error PyErr.nameError

/-- Predicate `_skip_user` (lines 423-437): `toggle` is `SKIP_DELETED_USER`, `users` the
fetched user list (`none` when the fetch returned no data; `u not in None`
then raises `TypeError`). -/
def skipUser (toggle : Bool) (owner user : Option String)
    (users : Option (List String)) : Except PyErr Bool :=
  if toggle = false then Except.ok false
  else do
    let u ← extractId owner user
    match users with
    | none => Except.error PyErr.typeError
    | some ks => Except.ok (decide (u ∉ ks))

/-- The `usage.rgw.main` block of a bucket-stat record; each field is read only
after a presence check (`_get_bucket_usage`, lines 586-601). -/
structure RgwMain where
  size_actual : Option Int
  size_kb_actual : Option Int
  size_utilized : Option Int
  num_objects : Option Int
deriving DecidableEq, Repr

/-- A `bucket_quota` block or a per-user quota record (the code reads these
four keys unconditionally). -/
structure QuotaRec where
  enabled : Bool
  max_size : Int
  max_size_kb : Int
  max_objects : Int
deriving DecidableEq, Repr

/-- A bucket-stat record as consumed by `_get_bucket_usage` (lines 575-644).
`usage_main` is `some` exactly when `bucket['usage']` is truthy and contains
the key `'rgw.main'` (line 586); such records carry no `'categories'` key, so
`_skip_bucket` sees both lifecycle counts at their `-1` default.  Non-dict
legacy entries, which line 575 filters out, are not modelled. -/
structure BucketStatRec where
  bucket : String
  owner : String
  num_shards : Int
  usage_main : Option RgwMain
  zonegroup : Option String
  tagset : Option (List (String × String))
  bucket_quota : Option QuotaRec
deriving DecidableEq, Repr

/-- The `stats` block of a user-info record. -/
structure StatsRec where
  size_actual : Int
  num_objects : Int
deriving DecidableEq, Repr

/-- A user-info record (`_get_user_info`, lines 724-748); every field the code
defaults on absence is an `Option`. -/
structure UserInfoRec where
  display_name : Option String
  email : Option String
  default_storage_class : Option String
  stats : Option StatsRec
deriving DecidableEq, Repr

/-- The `total` block of a usage-summary record. -/
structure TotalRec where
  ops : Int
  successful_ops : Int
  bytes_sent : Int
  bytes_received : Int
deriving DecidableEq, Repr

/-- One record of `rgw_usage['summary']`
(`_update_usage_summary_metrics`, lines 511-561). -/
structure SummaryRec where
  owner : Option String
  user : Option String
  categories : Option (List CategoryRec)
  total : Option TotalRec
deriving DecidableEq, Repr

/-- One element of an entry's `buckets` list.  `bucket` is read
unconditionally in both passes; `owner`/`user` feed `_skip_user` and
line 654's unconditional `bucket['owner']`; `categories` is probed with
`'categories' in bucket` by `_skip_bucket` and by the bucket-summary pass but
read unconditionally by `_get_usage` (line 472). -/
structure UsageBin where
  bucket : String
  owner : Option String
  user : Option String
  categories : Option (List CategoryRec)
deriving DecidableEq, Repr

/-- One element of `rgw_usage['entries']`: `owner`/`user` drive the id
extraction of lines 448-452; `buckets` is probed with `'buckets' in
user_entry` at line 651 but read unconditionally at line 457. -/
structure UsageEntry where
  owner : Option String
  user : Option String
  buckets : Option (List UsageBin)
deriving DecidableEq, Repr

/-- The usage fetch result: `{entries: [...], summary: [...]}`. -/
structure UsageResponse where
  entries : List UsageEntry
  summary : List SummaryRec
deriving DecidableEq, Repr

/-- One data point added to a metric family; `family` is the family's key in
`self._prometheus_metrics`. -/
structure Sample where
  family : String
  labels : List String
  value : Int
deriving DecidableEq, Repr

/-- The per-cycle mutable state of `collect`: the running totals and dicts
set up in lines 61-75 plus the samples added to the metric families. -/
structure CState where
  total_objects : Int
  total_bytes : Int
  total_bytes_sent : Int
  total_bytes_received : Int
  total_ops : Int
  total_successful_ops : Int
  ops_by_cat : Dict Int
  successful_ops_by_cat : Dict Int
  usage_dict : Dict (Dict (Dict CatCounters))
  user_buckets : Dict Int
  metrics : List Sample
deriving DecidableEq, Repr

/-- Python `self._prometheus_metrics[fam].add_metric(labels, v)`. -/
def CState.emit (s : CState) (fam : String) (labels : List String) (v : Int) :
    CState :=
  { s with metrics := s.metrics ++ [⟨fam, labels, v⟩] }

/-- The state at the top of `collect` (lines 61-75): all totals zero, all
dicts and all metric families empty. -/
def initState : CState :=
  { total_objects := 0, total_bytes := 0, total_bytes_sent := 0
    total_bytes_received := 0, total_ops := 0, total_successful_ops := 0
    ops_by_cat := [], successful_ops_by_cat := [], usage_dict := []
    user_buckets := [], metrics := [] }

/-- Update `d[k] = d.get(k, 0) + v` as the code writes it:
`if k not in d: d[k] = 0` then `d[k] += v`. -/
def dincrBy (d : Dict Int) (k : String) (v : Int) : Dict Int :=
  dmodify (dsetdefault d k 0) k (· + v)

/-- Line `if not bucket['bucket']: bucket_name = "bucket_root"` (lines 464-467):
the empty string is the only falsy value of the name field. -/
def binKeyName (b : UsageBin) : String :=
  if b.bucket = "" then "bucket_root" else b.bucket

/-- The innermost update of `_get_usage` (lines 474-480) for one element of a
bin's category list: ensure the `Counter` exists, then add the four counters. -/
def updCat (o bn : String) (u : Dict (Dict (Dict CatCounters)))
    (c : CategoryRec) : Dict (Dict (Dict CatCounters)) :=
  dmodify u o fun bd =>
    dmodify bd bn fun cd =>
      dmodify (dsetdefault cd c.category 0) c.category fun ctr =>
        ctr + c.counters

/-- The body of the bin loop of `_get_usage` (lines 457-480): drop the bin if
`_skip_bucket` says so, otherwise ensure the bucket's dict under owner `o` and
fold the bin's categories in.  A bin that survives `_skip_bucket` but has no
`'categories'` key raises `KeyError` at line 472. -/
def getUsageBin (toggle : Bool) (o : String)
    (u : Dict (Dict (Dict CatCounters))) (b : UsageBin) :
    Except PyErr (Dict (Dict (Dict CatCounters))) :=
  if skipBucket toggle b.categories then Except.ok u
  else
    let bn := binKeyName b
    match b.categories with
    | none => Except.error PyErr.keyError
    | some cats =>
      Except.ok (cats.foldl (updCat o bn)
        (dmodify u o fun bd => dsetdefault bd bn []))

/-- Method `_get_usage` (lines 440-480) for one usage entry: extract the owner id,
ensure its dict, then run the bin loop.  An entry with no `'buckets'` key
raises `KeyError` at line 457. -/
def getUsageEntry (toggle : Bool) (u : Dict (Dict (Dict CatCounters)))
    (e : UsageEntry) : Except PyErr (Dict (Dict (Dict CatCounters))) := do
  let o ← extractId e.owner e.user
  let u := dsetdefault u o []
  match e.buckets with
  | none => Except.error PyErr.keyError
  | some bins => bins.foldlM (getUsageBin toggle o) u

/-- The fixed key set of every `Counter` stored in `usage_dict`
(lines 477-480 update exactly these, in this order). -/
def counterKeys : List String := ["ops", "successful_ops", "bytes_sent", "bytes_received"]

/-- Predicate `_skip_bucket` as invoked by `_update_usage_metrics` (line 490), where the
argument is not a raw record but the aggregated per-bucket dict mapping
category names to `Counter`s.  `'categories' in bucket` is then a key test; if
a category is literally named `"categories"`, the loop iterates over its
`Counter`, which yields the four counter keys, and `'category' in category`
becomes a substring test on those key strings — were it ever true, the
subsequent `category['category']` would subscript a `str` with a `str` and
raise `TypeError`. -/
def skipBucketOnAgg (toggle : Bool) (bucketMap : Dict CatCounters) :
    Except PyErr Bool :=
  if toggle = false then Except.ok false
  else do
    let cd ← match dget bucketMap ("categories") with
      | none => Except.ok ((-1 : Int), (-1 : Int))
      | some _ =>
        counterKeys.foldlM
          (fun cd k =>
            if ("category").toList.IsInfix k.toList then
              Except.error PyErr.typeError
            else Except.ok cd)
          ((-1 : Int), (-1 : Int))
    Except.ok ((cd.1 == -1 && decide (cd.2 > 0)) || cd.1 == 0 ||
      (decide (cd.1 ≥ 0) && decide (cd.2 - cd.1 ≥ 0)))

/-- Method `_update_usage_metrics` (lines 482-509): walk the aggregated
`usage_dict` and add one sample per (bucket, owner, category) key to each of
the four usage counter families. -/
def updateUsageMetrics (toggle : Bool) (cluster : String) (s : CState) :
    Except PyErr CState :=
  s.usage_dict.foldlM
    (fun s ob =>
      ob.2.foldlM
        (fun s bb => do
          let sk ← skipBucketOnAgg toggle bb.2
          if sk then Except.ok s
          else
            Except.ok (bb.2.foldl
              (fun s cc =>
                ((((s.emit ("ops") [bb.1, ob.1, cc.1, cluster] cc.2.ops).emit
                  ("successful_ops") [bb.1, ob.1, cc.1, cluster]
                    cc.2.successful_ops).emit
                  ("bytes_sent") [bb.1, ob.1, cc.1, cluster]
                    cc.2.bytes_sent).emit
                  ("bytes_received") [bb.1, ob.1, cc.1, cluster]
                    cc.2.bytes_received))
              s))
        s)
    s

/-- Lexicographic comparison of char lists by code point — Python's `<` on
strings. -/
def charsLt : List Char → List Char → Bool
  | [], [] => false
  | [], _ :: _ => true
  | _ :: _, [] => false
  | a :: as, b :: bs =>
    if a.toNat < b.toNat then true
    else if b.toNat < a.toNat then false
    else charsLt as bs

/-- Python's tuple comparison `(k1, v1) <= (k2, v2)` on string pairs, as used
by `sorted(bucket_tagset.items())`. -/
def pairLe (p q : String × String) : Bool :=
  if p.1 = q.1 then !(charsLt q.2.toList p.2.toList)
  else charsLt p.1.toList q.1.toList

/-- Expression `", ".join("=".join((k, str(v))) for k, v in sorted(bucket_tagset.items()))`
(lines 611-612); tag values are strings, on which `str` is the identity. -/
def taglistOf (ts : List (String × String)) : String :=
  String.intercalate (", ") ((ts.mergeSort pairLe).map fun kv => kv.1 ++ "=" ++ kv.2)

/-- The `tagset`-absent default of lines 609-614. -/
def tagStringOf (ts : Option (List (String × String))) : String :=
  match ts with
  | some l => taglistOf l
  | none => ""

/-- The `size_actual` → `size_kb_actual * 1024` → `0` resolution of
lines 579-593 (given the `usage`/`rgw.main` guard already folded into the
`Option`). -/
def bucketUsageBytes (m : Option RgwMain) : Int :=
  match m with
  | none => 0
  | some mm =>
    match mm.size_actual with
    | some v => v
    | none =>
      match mm.size_kb_actual with
      | some kb => kb * 1024
      | none => 0

/-- Method `_get_bucket_usage` (lines 563-648) for one (dict-shaped) bucket-stat
record: the `_skip_bucket` call at line 569 sees a record without a
`'categories'` key; then the per-owner bucket counter and the gauge samples,
with the quota block only when `bucket_quota` is present.  Quota `enabled`
booleans are emitted as 0/1. -/
def getBucketUsage (toggle : Bool) (cluster : String) (s : CState)
    (r : BucketStatRec) : CState :=
  if skipBucket toggle none then s
  else
    let s := { s with user_buckets := dmodify (dsetdefault s.user_buckets r.owner 0) r.owner (· + 1) }
    let ub := bucketUsageBytes r.usage_main
    let util := match r.usage_main with
      | some mm => match mm.size_utilized with
        | some v => v
        | none => 0
      | none => 0
    let objs := match r.usage_main with
      | some mm => match mm.num_objects with
        | some v => v
        | none => 0
      | none => 0
    let zg := match r.zonegroup with
      | some z => z
      | none => "0"
    let tl := tagStringOf r.tagset
    let s := s.emit ("bucket_usage_bytes") [r.bucket, r.owner, zg, cluster, tl] ub
    let s := s.emit ("bucket_utilized_bytes") [r.bucket, r.owner, zg, cluster, tl] util
    let s := s.emit ("bucket_usage_objects") [r.bucket, r.owner, zg, cluster, tl] objs
    let s := match r.bucket_quota with
      | none => s
      | some q =>
        (((s.emit ("bucket_quota_enabled") [r.bucket, r.owner, zg, cluster, tl]
            (if q.enabled then 1 else 0)).emit
          ("bucket_quota_max_size") [r.bucket, r.owner, zg, cluster, tl]
            q.max_size).emit
          ("bucket_quota_max_size_bytes") [r.bucket, r.owner, zg, cluster, tl]
            (q.max_size_kb * 1024)).emit
          ("bucket_quota_max_objects") [r.bucket, r.owner, zg, cluster, tl]
            q.max_objects
    s.emit ("bucket_shards") [r.bucket, r.owner, zg, cluster, tl] r.num_shards

/-- Method `_update_usage_summary_metrics` (lines 511-561) for one summary record.
Note lines 532-540: both the `ops` and the `successful_ops` of every category
are accumulated into `self._ops`; `self._successful_ops` is never written. -/
def updateUsageSummaryMetrics (cluster : String) (s : CState)
    (sm : SummaryRec) : Except PyErr CState := do
  let user ← extractId sm.owner sm.user
  let s := match sm.categories with
    | none => s
    | some cats =>
      cats.foldl
        (fun s c =>
          let s := s.emit ("user_bytes_sent") [user, cluster, c.category] c.bytes_sent
          let s := s.emit ("user_bytes_received") [user, cluster, c.category] c.bytes_received
          let s := s.emit ("user_ops") [user, cluster, c.category] c.ops
          let s := { s with ops_by_cat := dincrBy s.ops_by_cat c.category c.ops }
          let s := s.emit ("user_successful_ops") [user, cluster, c.category] c.successful_ops
          { s with ops_by_cat := dincrBy s.ops_by_cat c.category c.successful_ops })
        s
  let s := match sm.total with
    | none => s
    | some t =>
      let s := s.emit ("user_total_bytes_sent") [user, cluster] t.bytes_sent
      let s := { s with total_bytes_sent := s.total_bytes_sent + t.bytes_sent }
      let s := s.emit ("user_total_bytes_received") [user, cluster] t.bytes_received
      let s := { s with total_bytes_received := s.total_bytes_received + t.bytes_received }
      let s := s.emit ("user_total_ops") [user, cluster] t.ops
      let s := { s with total_ops := s.total_ops + t.ops }
      let s := s.emit ("user_total_successful_ops") [user, cluster] t.successful_ops
      { s with total_successful_ops := s.total_successful_ops + t.successful_ops }
  match dget s.user_buckets user with
  | some n => Except.ok (s.emit ("user_total_buckets") [user, cluster] n)
  | none => Except.ok s

/-- Method `_update_bucket_usage_summary_metrics` (lines 650-679) for one usage
entry: per bin, read name and owner (line 654 raises `KeyError` when the
`'owner'` key is absent), apply `_skip_bucket` then (short-circuit `or`)
`_skip_user`, and emit the four per-bucket aggregate gauges summed over the
bin's categories. -/
def updateBucketUsageSummaryMetrics (toggleB toggleU : Bool) (cluster : String)
    (users : Option (List String)) (s : CState) (e : UsageEntry) :
    Except PyErr CState :=
  match e.buckets with
  | none => Except.ok s
  | some bins =>
    bins.foldlM
      (fun s b => do
        let bn := b.bucket
        let bo ← match b.owner with
          | some o => Except.ok o
          | none => Except.error PyErr.keyError
        let skipB := skipBucket toggleB b.categories
        let skipU ← if skipB then Except.ok false
          else skipUser toggleU b.owner b.user users
        if skipB || skipU then Except.ok s
        else
          let acc := match b.categories with
            | none => ((0 : Int), (0 : Int), (0 : Int), (0 : Int))
            | some cats =>
              cats.foldl
                (fun (acc : Int × Int × Int × Int) (c : CategoryRec) =>
                  (acc.1 + c.bytes_sent, acc.2.1 + c.bytes_received,
                   acc.2.2.1 + c.ops, acc.2.2.2 + c.successful_ops))
                (0, 0, 0, 0)
          Except.ok ((((s.emit ("bucket_ops") [bn, bo, cluster] acc.2.2.1).emit
            ("bucket_successful_ops") [bn, bo, cluster] acc.2.2.2).emit
            ("bucket_bytes_sent") [bn, bo, cluster] acc.1).emit
            ("bucket_bytes_received") [bn, bo, cluster] acc.2.1))
      s

/-- Method `_get_user_quota` (lines 697-713): a failed quota fetch leaves `quota` as
`None` and line 707's subscript raises `TypeError`; otherwise the four user
quota gauges are emitted, the byte quota converted from kilobytes. -/
def getUserQuota (cluster : String) (quotaOf : String → Option QuotaRec)
    (s : CState) (u : String) : Except PyErr CState :=
  match quotaOf u with
  | none => Except.error PyErr.typeError
  | some q =>
    Except.ok ((((s.emit ("user_quota_enabled") [u, cluster]
        (if q.enabled then 1 else 0)).emit
      ("user_quota_max_size") [u, cluster] q.max_size).emit
      ("user_quota_max_size_bytes") [u, cluster] (q.max_size_kb * 1024)).emit
      ("user_quota_max_objects") [u, cluster] q.max_objects)

/-- Method `_get_user_info` (lines 715-748) given the fetched record: metadata is
always emitted (absent name/email/storage class default to `""`); the
per-user totals and the global accumulators are touched only when a `stats`
block is present. -/
def getUserInfo (cluster : String) (s : CState) (u : String)
    (info : UserInfoRec) : CState :=
  let dn := match info.display_name with
    | some v => v
    | none => ""
  let em := match info.email with
    | some v => v
    | none => ""
  let sc := match info.default_storage_class with
    | some v => v
    | none => ""
  let s := s.emit ("user_metadata") [u, dn, em, sc, cluster] 1
  match info.stats with
  | none => s
  | some st =>
    let s := s.emit ("user_total_bytes") [u, cluster] st.size_actual
    let s := { s with total_bytes := s.total_bytes + st.size_actual }
    let s := s.emit ("user_total_objects") [u, cluster] st.num_objects
    { s with total_objects := s.total_objects + st.num_objects }

/-- The fetch results one `collect` cycle works from; `none` models the
external client returning no data for that request. -/
structure Inputs where
  usage : Option UsageResponse
  buckets : Option (List BucketStatRec)
  users : Option (List String)
  quotaOf : String → Option QuotaRec
  infoOf : String → Option UserInfoRec

/-- Method `collect` (lines 51-155), phase by phase: usage aggregation and emission,
bucket stats, per-user quota/info, user summaries (gated by `_skip_user`),
bucket usage summaries, then the global gauges.  The wall-clock
`scrape_duration_seconds` sample is not modelled.  The final loop over
`self._successful_ops` (lines 150-152) indexes the family dict with the
misspelled key `'total_category__successful_ops'` and would raise `KeyError`
on a nonempty dict. -/
def collect (toggleB toggleU : Bool) (cluster : String) (inp : Inputs) :
    Except PyErr CState := do
  let s := initState
  let s ← match inp.usage with
    | none => Except.ok s
    | some ru => do
      let u ← ru.entries.foldlM (getUsageEntry toggleB) []
      updateUsageMetrics toggleB cluster { s with usage_dict := u }
  let s := match inp.buckets with
    | none => s
    | some bs => bs.foldl (getBucketUsage toggleB cluster) s
  let s ← match inp.users with
    | none => Except.ok s
    | some us =>
      us.foldlM
        (fun s u => do
          let s ← getUserQuota cluster inp.quotaOf s u
          match inp.infoOf u with
          | none => Except.error PyErr.typeError
          | some info => Except.ok (getUserInfo cluster s u info))
        s
  let s ← match inp.usage with
    | none => Except.ok s
    | some ru =>
      ru.summary.foldlM
        (fun s sm => do
          let sk ← skipUser toggleU sm.owner sm.user inp.users
          if sk then Except.ok s else updateUsageSummaryMetrics cluster s sm)
        s
  let s ← match inp.usage with
    | none => Except.ok s
    | some ru =>
      ru.entries.foldlM
        (updateBucketUsageSummaryMetrics toggleB toggleU cluster inp.users) s
  let s := s.emit ("total_users") []
    (match inp.users with
     | none => 0
     | some us => (us.length : Int))
  let s := s.emit ("total_buckets") []
    (match inp.buckets with
     | none => 0
     | some bs => (bs.length : Int))
  let s := s.emit ("total_objects") [] s.total_objects
  let s := s.emit ("total_bytes") [] s.total_bytes
  let s := s.emit ("total_bytes_sent") [] s.total_bytes_sent
  let s := s.emit ("total_bytes_received") [] s.total_bytes_received
  let s := s.emit ("total_ops") [] s.total_ops
  let s := s.emit ("total_successful_ops") [] s.total_successful_ops
  let s := s.ops_by_cat.foldl
    (fun s cv => s.emit ("total_category_ops") [cv.1] cv.2) s
  if s.successful_ops_by_cat.isEmpty then Except.ok s
  else Except.error PyErr.keyError

/-- An aggregation key of `usage_dict`: (owner, bucket name, category). -/
abbrev UKey := String × String × String

/-- The (key, counters) contributions one bin adds for owner `o` in
`_get_usage`: nothing when `_skip_bucket` drops the bin, else one contribution
per element of its category list. -/
def keptBinContribs (toggle : Bool) (o : String) (b : UsageBin) :
    List (UKey × CatCounters) :=
  if skipBucket toggle b.categories then []
  else (b.categories.getD []).map fun c => ((o, binKeyName b, c.category), c.counters)

/-- All contributions of one usage entry (empty when the id extraction would
fault; callers only use this along succeeding runs of `_get_usage`). -/
def entryContribs (toggle : Bool) (e : UsageEntry) : List (UKey × CatCounters) :=
  match extractId e.owner e.user with
  | Except.error _ => []
  | Except.ok o => (e.buckets.getD []).flatMap (keptBinContribs toggle o)

/-- All contributions of a list of usage entries, in order. -/
def usageContribs (toggle : Bool) (l : List UsageEntry) :
    List (UKey × CatCounters) :=
  (l.map (entryContribs toggle)).flatten

/-- Read one `Counter` out of the aggregated `usage_dict`; a missing key at
any level reads as the zero counter (a `Counter` returns 0 for absent keys). -/
def aggLookup (u : Dict (Dict (Dict CatCounters))) (k : UKey) : CatCounters :=
  (dget ((dget ((dget u k.1).getD []) k.2.1).getD []) k.2.2).getD 0

/-- The field-wise sum of all contributions carrying key `k`. -/
def keySum (L : List (UKey × CatCounters)) (k : UKey) : CatCounters :=
  ((L.filter fun kv => kv.1 = k).map fun kv => kv.2).sum

theorem dget_append {α : Type} (d d' : Dict α) (k : String) :
    dget (d ++ d') k = ((dget d k).rec (dget d' k) fun v => some v) := by
  induction d with
  | nil => rfl
  | cons kv rest ih =>
    by_cases h : kv.1 = k
    · simp [dget, h]
    · simpa [dget, h] using ih

theorem dget_dsetdefault {α : Type} (d : Dict α) (k : String) (v : α)
    (k' : String) :
    dget (dsetdefault d k v) k' =
      if k' = k then some ((dget d k).getD v) else dget d k' := by
  unfold dsetdefault
  by_cases hs : (dget d k).isSome
  · obtain ⟨w, hw⟩ := Option.isSome_iff_exists.mp hs
    by_cases hk : k' = k <;> simp [hk, hw]
  · have hn : dget d k = none := Option.not_isSome_iff_eq_none.mp hs
    by_cases hk : k' = k
    · subst hk
      simp [hn, dget_append, dget]
    · simp [hs, dget_append, hk]
      rcases h : dget d k' with _ | w <;> simp [dget, Ne.symm hk]

theorem dget_dmodify {α : Type} (d : Dict α) (k : String) (f : α → α)
    (k' : String) :
    dget (dmodify d k f) k' =
      if k' = k then (dget d k).map f else dget d k' := by
  induction d with
  | nil => simp [dmodify, dget]
  | cons kv rest ih =>
    obtain ⟨a, v⟩ := kv
    show dget ((if a = k then (a, f v) else (a, v)) :: dmodify rest k f) k' = _
    by_cases hak : a = k
    · rw [if_pos hak]
      subst hak
      by_cases hk : k' = a
      · subst hk
        simp [dget]
      · simp [dget, ih, hk, Ne.symm hk]
    · rw [if_neg hak]
      show (if a = k' then some v else dget (dmodify rest k f) k') = _
      by_cases hak' : a = k'
      · have hk : ¬(k' = k) := fun h => hak (hak'.trans h)
        simp [dget, hak', hk]
      · simp [dget, ih, hak, hak']

/-- C2's concrete rows use these abbreviations for a lifecycle category. -/
def lifecycleCat (name : String) (succ : Int) : CategoryRec :=
  ⟨name, 0, succ, 0, 0⟩

/-- Claim C2: For every record, with creations/deletions defaulting to `-1`
when `create_bucket` / `delete_bucket` successful-op counts are not observed
in the category list, `_skip_bucket` (with the toggle on) answers skip exactly
when `(creations = -1 ∧ deletions > 0) ∨ creations = 0 ∨ (creations ≥ 0 ∧
deletions - creations ≥ 0)`; the five truth-table rows come out as
skip/skip/skip/keep/keep; and with the toggle off the predicate is constantly
false. -/
theorem claim_C2 :
    (∀ cats : Option (List CategoryRec), skipBucket false cats = false) ∧
    (∀ cats : Option (List CategoryRec),
      (skipBucket true cats = true ↔
        (let cd := match cats with
          | some cs => bucketLifecycleCounts cs
          | none => ((-1 : Int), (-1 : Int))
        (cd.1 = -1 ∧ cd.2 > 0) ∨ cd.1 = 0 ∨ (cd.1 ≥ 0 ∧ cd.2 - cd.1 ≥ 0)))) ∧
    skipBucket true (some [lifecycleCat "delete_bucket" 5]) = true ∧
    skipBucket true (some [lifecycleCat "create_bucket" 0]) = true ∧
    skipBucket true (some [lifecycleCat "create_bucket" 3, lifecycleCat "delete_bucket" 3]) = true ∧
    skipBucket true (some [lifecycleCat "create_bucket" 3, lifecycleCat "delete_bucket" 1]) = false ∧
    skipBucket true (some []) = false ∧
    skipBucket true none = false := by
  refine ⟨fun cats => rfl, fun cats => ?_, by decide, by decide, by decide,
    by decide, by decide, by decide⟩
  simp only [skipBucket, if_neg (by simp : ¬(true = false))]
  cases cats <;>
    simp [Bool.or_eq_true, Bool.and_eq_true, beq_iff_eq, decide_eq_true_eq,
      or_assoc]

/-- Claim C10: The shared owner/user id extraction succeeds exactly when the
record carries an `'owner'` or a `'user'` key; `'owner'` wins when both are
present; with neither, evaluation faults (`NameError`), so the fault is
unreachable exactly under that precondition. -/
theorem claim_C10 :
    (∀ owner user : Option String,
      (∃ v, extractId owner user = Except.ok v) ↔
        (owner.isSome = true ∨ user.isSome = true)) ∧
    (∀ (o : String) (user : Option String),
      extractId (some o) user = Except.ok o) ∧
    (∀ v : String, extractId none (some v) = Except.ok v) ∧
    extractId none none = Except.error PyErr.nameError := by
  refine ⟨fun owner user => ?_, fun o user => rfl, fun v => rfl, rfl⟩
  cases owner <;> cases user <;> simp [extractId]

/-- Claim C6: The usage-bytes value of a bucket-stat record is resolved by the
fallback chain `size_actual` → `size_kb_actual * 1024` → `0`; in particular a
record with `size_kb_actual = 2048` and no `size_actual` is emitted with a
`bucket_usage_bytes` sample of exactly 2097152. -/
theorem claim_C6 :
    (∀ m : Option RgwMain,
      bucketUsageBytes m =
        (((m.bind RgwMain.size_actual).orElse
          fun _ => (m.bind RgwMain.size_kb_actual).map (· * 1024)).getD 0)) ∧
    ((getBucketUsage true "ceph" initState
        ⟨"b", "o", 1, some ⟨none, some 2048, none, none⟩, none, none, none⟩).metrics.filter
          fun m => m.family = "bucket_usage_bytes") =
      [⟨"bucket_usage_bytes", ["b", "o", "0", "ceph", ""], 2097152⟩] := by
  constructor
  · intro m
    rcases m with _ | ⟨sa, skb, su, no⟩
    · rfl
    · cases sa <;> cases skb <;> rfl
  · rfl

/-- Claim C8: A user record with no `stats` block emits no `user_total_bytes`
or `user_total_objects` sample and leaves the global byte/object totals
untouched; its `user_metadata` sample is still emitted. -/
theorem claim_C8 (cluster u : String) (s : CState) (info : UserInfoRec)
    (h : info.stats = none) :
    (getUserInfo cluster s u info).metrics =
      s.metrics ++
        [⟨"user_metadata",
          [u,
           (match info.display_name with | some v => v | none => ""),
           (match info.email with | some v => v | none => ""),
           (match info.default_storage_class with | some v => v | none => ""),
           cluster], 1⟩] ∧
    (getUserInfo cluster s u info).total_bytes = s.total_bytes ∧
    (getUserInfo cluster s u info).total_objects = s.total_objects := by
  unfold getUserInfo
  rw [h]
  exact ⟨rfl, rfl, rfl⟩

/-- Witness for C8 at a concrete record with no `stats` block. -/
theorem claim_C8_witness :
    (getUserInfo "ceph" initState "alice" ⟨some "Alice", none, none, none⟩).metrics =
      initState.metrics ++ [⟨"user_metadata", ["alice", "Alice", "", "", "ceph"], 1⟩] ∧
    (getUserInfo "ceph" initState "alice" ⟨some "Alice", none, none, none⟩).total_bytes =
      initState.total_bytes ∧
    (getUserInfo "ceph" initState "alice" ⟨some "Alice", none, none, none⟩).total_objects =
      initState.total_objects :=
  claim_C8 "ceph" "alice" initState ⟨some "Alice", none, none, none⟩ rfl

/-- Scenario C inputs: the user-list fetch returned no data while the usage
fetch succeeded with a summary record for owner `alice`. -/
def scenarioCInputs : Inputs :=
  { usage := some ⟨[], [⟨some "alice", none, some [], none⟩]⟩
    buckets := none
    users := none
    quotaOf := fun _ => none
    infoOf := fun _ => none }

/-- Claim C3 is violated by the code. With the user list unavailable and a
usage summary present, `collect` does not complete the cycle with the
summary skipped and `total_users = 0`: `_skip_user` evaluates
`'alice' not in None` and the whole cycle aborts with `TypeError` before any
metric is yielded. -/
theorem claim_C3_bug :
    collect true true "ceph" scenarioCInputs = Except.error PyErr.typeError := rfl

/-- Inputs exhibiting the C5 per-category accumulation: one active user
`alice` whose summary has one category `get_obj` with `ops = 10` and
`successful_ops = 5`. -/
def scenarioC5Inputs : Inputs :=
  { usage := some ⟨[], [⟨some "alice", none, some [⟨"get_obj", 10, 5, 0, 0⟩], none⟩]⟩
    buckets := none
    users := some ["alice"]
    quotaOf := fun _ => some ⟨false, 0, 0, 0⟩
    infoOf := fun _ => some ⟨none, none, none, none⟩ }

/-- Claim C5 is violated by the code. For an eligible summary with `get_obj`
ops 10 and successful_ops 5, the emitted `total_category_ops` sample is 15
(`_update_usage_summary_metrics` adds both counters into `self._ops`), and no
`total_category_successful_ops` sample is emitted at all (`_successful_ops`
is never populated), instead of the claimed 10 and 5. -/
theorem claim_C5_bug :
    (collect true true "ceph" scenarioC5Inputs).map
        (fun s =>
          (s.metrics.filter fun m => m.family = "total_category_ops",
           s.metrics.filter fun m => m.family = "total_category_successful_ops")) =
      Except.ok ([⟨"total_category_ops", ["get_obj"], 15⟩], []) := rfl

/-- Claim C4 is refuted. The same bucket `b`, in the same cycle, gets opposite
verdicts at two of the claimed sites: its usage bin (categories showing
`create_bucket` with 0 successful ops) is skipped by the per-bin pass, so the
usage pass aggregates nothing for owner `o`; but the bucket-stat record of
`b`, carrying no category list, is kept by `_get_bucket_usage`, which emits
its gauges. -/
theorem claim_C4_counterexample :
    skipBucket true (some [lifecycleCat "create_bucket" 0]) = true ∧
    getUsageEntry true []
        ⟨some "o", none,
         some [⟨"b", some "o", none, some [lifecycleCat "create_bucket" 0]⟩]⟩ =
      Except.ok [("o", [])] ∧
    skipBucket true none = false ∧
    ((getBucketUsage true "ceph" initState
        ⟨"b", "o", 3, none, none, none, none⟩).metrics.map Sample.family) =
      ["bucket_usage_bytes", "bucket_utilized_bytes", "bucket_usage_objects",
       "bucket_shards"] :=
  ⟨by decide, rfl, by decide, rfl⟩

/-- Claim C4 amended: Within one cycle the per-bin usage pass and the
bucket-usage-summary pass apply the one shared predicate to the very same
category-list field of a bin, so a given bin gets one verdict; but the
post-merge emission pass (predicate applied to the aggregated
category-to-Counter dict) and the bucket-stat pass (records without a
category list) always answer keep, whatever the data. -/
theorem claim_C4_amended (t : Bool) (d : Dict CatCounters) :
    skipBucketOnAgg t d = Except.ok false ∧ skipBucket t none = false := by
  constructor
  · cases t
    · rfl
    · unfold skipBucketOnAgg
      rcases dget d ("categories") with _ | c
      · rfl
      · rfl
  · cases t <;> decide

/-- Claim C7: For every bucket-stat record carrying a quota block and every
fetched user quota, the emitted byte-size quota sample equals the source
`max_size_kb` times exactly 1024, on both the bucket-quota and the
user-quota path. -/
theorem claim_C7 (cluster u : String) (s : CState) (r : BucketStatRec)
    (q : QuotaRec) (f : String → Option QuotaRec)
    (hb : r.bucket_quota = some q) (hf : f u = some q) :
    ((getBucketUsage true cluster s r).metrics.filter
        fun m => m.family = "bucket_quota_max_size_bytes") =
      (s.metrics.filter fun m => m.family = "bucket_quota_max_size_bytes") ++
        [⟨"bucket_quota_max_size_bytes",
          [r.bucket, r.owner,
           (match r.zonegroup with | some z => z | none => "0"),
           cluster, tagStringOf r.tagset],
          q.max_size_kb * 1024⟩] ∧
    (getUserQuota cluster f s u).map
        (fun s2 => s2.metrics.filter fun m => m.family = "user_quota_max_size_bytes") =
      Except.ok ((s.metrics.filter fun m => m.family = "user_quota_max_size_bytes") ++
        [⟨"user_quota_max_size_bytes", [u, cluster], q.max_size_kb * 1024⟩]) := by
  have hsk : skipBucket true (none : Option (List CategoryRec)) = false := by decide
  constructor
  · simp [getBucketUsage, hsk, hb, CState.emit, List.filter_append]
  · simp [getUserQuota, hf, CState.emit, Except.map, List.filter_append]

/-- Witness for C7: `max_size_kb = 10` yields 10240 bytes on both paths. -/
theorem claim_C7_witness :
    ((getBucketUsage true "ceph" initState
        ⟨"b", "o", 1, none, none, none, some ⟨true, 10240, 10, 100⟩⟩).metrics.filter
        fun m => m.family = "bucket_quota_max_size_bytes") =
      (initState.metrics.filter fun m => m.family = "bucket_quota_max_size_bytes") ++
        [⟨"bucket_quota_max_size_bytes", ["b", "o", "0", "ceph", ""], 10240⟩] ∧
    (getUserQuota "ceph" (fun _ => some ⟨true, 10240, 10, 100⟩) initState "alice").map
        (fun s2 => s2.metrics.filter fun m => m.family = "user_quota_max_size_bytes") =
      Except.ok ((initState.metrics.filter fun m => m.family = "user_quota_max_size_bytes") ++
        [⟨"user_quota_max_size_bytes", ["alice", "ceph"], 10240⟩]) := by
  have h := claim_C7 "ceph" "alice" initState
    ⟨"b", "o", 1, none, none, none, some ⟨true, 10240, 10, 100⟩⟩
    ⟨true, 10240, 10, 100⟩ (fun _ => some ⟨true, 10240, 10, 100⟩) rfl rfl
  norm_num at h
  exact h

theorem char_eq_of_toNat (x y : Char) (h : x.toNat = y.toNat) : x = y := by
  apply Char.ext
  apply UInt32.ext
  simpa [Char.toNat, UInt32.toNat] using h

theorem string_eq_of_toList (a b : String) (h : a.toList = b.toList) : a = b := by
  apply String.ext
  simpa [String.toList] using h

theorem charsLt_asymm : ∀ a b : List Char,
    charsLt a b = true → charsLt b a = false := by
  intro a
  induction a with
  | nil =>
    intro b h
    cases b with
    | nil => simp [charsLt] at h
    | cons y ys => simp [charsLt]
  | cons x xs ih =>
    intro b h
    cases b with
    | nil => simp [charsLt] at h
    | cons y ys =>
      simp only [charsLt] at h ⊢
      by_cases h1 : x.toNat < y.toNat
      · have h2 : ¬(y.toNat < x.toNat) := by omega
        simp [h1, h2]
      · by_cases h2 : y.toNat < x.toNat
        · simp [h1, h2] at h
        · simp [h1, h2] at h ⊢
          exact ih ys h

theorem charsLt_trans : ∀ a b c : List Char,
    charsLt a b = true → charsLt b c = true → charsLt a c = true := by
  intro a
  induction a with
  | nil =>
    intro b c hab hbc
    cases b with
    | nil => simp [charsLt] at hab
    | cons y ys =>
      cases c with
      | nil => simp [charsLt] at hbc
      | cons z zs => simp [charsLt]
  | cons x xs ih =>
    intro b c hab hbc
    cases b with
    | nil => simp [charsLt] at hab
    | cons y ys =>
      cases c with
      | nil => simp [charsLt] at hbc
      | cons z zs =>
        simp only [charsLt] at hab hbc ⊢
        by_cases h1 : x.toNat < y.toNat
        · by_cases h2 : y.toNat < z.toNat
          · have h5 : x.toNat < z.toNat := by omega
            simp [h5]
          · by_cases h3 : z.toNat < y.toNat
            · simp [h2, h3] at hbc
            · have h5 : x.toNat < z.toNat := by omega
              simp [h5]
        · by_cases h4 : y.toNat < x.toNat
          · simp [h1, h4] at hab
          · simp [h1, h4] at hab
            by_cases h2 : y.toNat < z.toNat
            · have h5 : x.toNat < z.toNat := by omega
              simp [h5]
            · by_cases h3 : z.toNat < y.toNat
              · simp [h2, h3] at hbc
              · simp [h2, h3] at hbc
                have h5 : ¬(x.toNat < z.toNat) := by omega
                have h6 : ¬(z.toNat < x.toNat) := by omega
                simp [h5, h6]
                exact ih ys zs hab hbc

theorem charsLt_conn : ∀ a b : List Char,
    charsLt a b = false → charsLt b a = false → a = b := by
  intro a
  induction a with
  | nil =>
    intro b h1 h2
    cases b with
    | nil => rfl
    | cons y ys => simp [charsLt] at h1
  | cons x xs ih =>
    intro b h1 h2
    cases b with
    | nil => simp [charsLt] at h2
    | cons y ys =>
      simp only [charsLt] at h1 h2
      by_cases hxy : x.toNat < y.toNat
      · simp [hxy] at h1
      · by_cases hyx : y.toNat < x.toNat
        · simp [hyx] at h2
        · simp [hxy, hyx] at h1 h2
          have hx : x = y := char_eq_of_toNat x y (by omega)
          rw [hx, ih ys h1 h2]

theorem bool_eq_false {b : Bool} (h : ¬(b = true)) : b = false := by
  cases b
  · rfl
  · exact absurd rfl h

theorem not_bang_true {b : Bool} (h : (!b) = true) : b = false := by
  cases b
  · rfl
  · exact absurd h (by decide)

theorem bang_true_of_false {b : Bool} (h : b = false) : (!b) = true := by
  rw [h]; rfl

theorem pairLe_eq (k1 v1 k2 v2 : String) :
    pairLe (k1, v1) (k2, v2) =
      if k1 = k2 then !charsLt v2.toList v1.toList
      else charsLt k1.toList k2.toList := rfl

theorem pairLe_total (p q : String × String) :
    (pairLe p q || pairLe q p) = true := by
  rcases p with ⟨k1, v1⟩
  rcases q with ⟨k2, v2⟩
  rw [Bool.or_eq_true, pairLe_eq, pairLe_eq]
  by_cases hk : k1 = k2
  · subst hk
    rw [if_pos rfl, if_pos rfl]
    by_cases hv : charsLt v2.toList v1.toList = true
    · exact Or.inr (bang_true_of_false (charsLt_asymm _ _ hv))
    · exact Or.inl (bang_true_of_false (bool_eq_false hv))
  · rw [if_neg hk, if_neg (Ne.symm hk)]
    by_cases h1 : charsLt k1.toList k2.toList = true
    · exact Or.inl h1
    · by_cases h2 : charsLt k2.toList k1.toList = true
      · exact Or.inr h2
      · exact absurd
          (string_eq_of_toList _ _
            (charsLt_conn _ _ (bool_eq_false h1) (bool_eq_false h2))) hk

theorem pairLe_trans (p q r : String × String)
    (h1 : pairLe p q = true) (h2 : pairLe q r = true) : pairLe p r = true := by
  rcases p with ⟨k1, v1⟩
  rcases q with ⟨k2, v2⟩
  rcases r with ⟨k3, v3⟩
  rw [pairLe_eq] at h1 h2 ⊢
  by_cases ha : k1 = k2
  · subst ha
    rw [if_pos rfl] at h1
    have h1' := not_bang_true h1
    by_cases hb : k1 = k3
    · subst hb
      rw [if_pos rfl] at h2 ⊢
      have h2' := not_bang_true h2
      apply bang_true_of_false
      by_cases hc : charsLt v3.toList v1.toList = true
      · exfalso
        by_cases hd : charsLt v2.toList v3.toList = true
        · have h5 := charsLt_trans _ _ _ hd hc
          rw [h1'] at h5
          exact Bool.noConfusion h5
        · have hv23 : v2.toList = v3.toList :=
            charsLt_conn _ _ (bool_eq_false hd) h2'
          rw [← hv23] at hc
          rw [h1'] at hc
          exact Bool.noConfusion hc
      · exact bool_eq_false hc
    · rw [if_neg hb]
      rw [if_neg hb] at h2
      exact h2
  · rw [if_neg ha] at h1
    by_cases hb : k2 = k3
    · subst hb
      rw [if_neg ha]
      exact h1
    · rw [if_neg hb] at h2
      have h3 := charsLt_trans _ _ _ h1 h2
      by_cases hc : k1 = k3
      · exfalso
        subst hc
        have h4 := charsLt_asymm _ _ h1
        rw [h2] at h4
        exact Bool.noConfusion h4
      · rw [if_neg hc]
        exact h3

theorem pairLe_antisymm (p q : String × String)
    (h1 : pairLe p q = true) (h2 : pairLe q p = true) : p = q := by
  rcases p with ⟨k1, v1⟩
  rcases q with ⟨k2, v2⟩
  rw [pairLe_eq] at h1 h2
  by_cases hk : k1 = k2
  · subst hk
    rw [if_pos rfl] at h1 h2
    have hv : v2.toList = v1.toList :=
      charsLt_conn _ _ (not_bang_true h1) (not_bang_true h2)
    rw [string_eq_of_toList _ _ hv]
  · rw [if_neg hk] at h1
    rw [if_neg (Ne.symm hk)] at h2
    have h4 := charsLt_asymm _ _ h1
    rw [h2] at h4
    exact Bool.noConfusion h4

/-- Sorting with `pairLe` assigns permutation-equal inputs the same output. -/
theorem mergeSort_pairLe_eq {ts ts' : List (String × String)}
    (h : ts.Perm ts') : ts.mergeSort pairLe = ts'.mergeSort pairLe := by
  haveI : IsAntisymm (String × String) (fun a b => pairLe a b = true) :=
    ⟨fun a b ha hb => pairLe_antisymm a b ha hb⟩
  apply List.eq_of_perm_of_sorted (r := fun a b => pairLe a b = true)
  · exact (List.mergeSort_perm ts pairLe).trans
      (h.trans (List.mergeSort_perm ts' pairLe).symm)
  · exact List.sorted_mergeSort (fun a b c => pairLe_trans a b c)
      (fun a b => pairLe_total a b) ts
  · exact List.sorted_mergeSort (fun a b c => pairLe_trans a b c)
      (fun a b => pairLe_total a b) ts'

/-- Claim C9: Tag serialization is a function of the set of key/value pairs
only — any permutation of the input items serializes identically —
`{b: 2, a: 1}` serializes to `"a=1, b=2"`, and a bucket without a tag set
yields the empty string. -/
theorem claim_C9 :
    (∀ ts ts' : List (String × String), ts.Perm ts' → taglistOf ts = taglistOf ts') ∧
    taglistOf [("b", "2"), ("a", "1")] = "a=1, b=2" ∧
    tagStringOf none = "" := by
  refine ⟨fun ts ts' h => ?_, ?_, rfl⟩
  · unfold taglistOf
    rw [mergeSort_pairLe_eq h]
  · unfold taglistOf
    rw [mergeSort_pairLe_eq (List.Perm.swap ("a", "1") ("b", "2") [])]
    have hs : ([("a", "1"), ("b", "2")] : List (String × String)).mergeSort pairLe =
        [("a", "1"), ("b", "2")] := by
      haveI : IsAntisymm (String × String) (fun a b => pairLe a b = true) :=
        ⟨fun a b ha hb => pairLe_antisymm a b ha hb⟩
      apply List.eq_of_perm_of_sorted (r := fun a b => pairLe a b = true)
      · exact List.mergeSort_perm _ pairLe
      · exact List.sorted_mergeSort (fun a b c => pairLe_trans a b c)
          (fun a b => pairLe_total a b) _
      · refine List.Pairwise.cons ?_ (List.Pairwise.cons (by simp) List.Pairwise.nil)
        intro p hp
        simp only [List.mem_singleton] at hp
        subst hp
        decide
    rw [hs]
    rfl

/-- Witness for C9's permutation invariance at a concrete pair of inputs. -/
theorem claim_C9_witness :
    taglistOf [("b", "2"), ("a", "1")] = taglistOf [("a", "1"), ("b", "2")] :=
  claim_C9.1 _ _ (by decide)

theorem keySum_nil (k : UKey) : keySum [] k = 0 := rfl

theorem keySum_cons (p : UKey × CatCounters) (L : List (UKey × CatCounters))
    (k : UKey) :
    keySum (p :: L) k = (if p.1 = k then p.2 else 0) + keySum L k := by
  by_cases h : p.1 = k
  · simp [keySum, h, List.filter_cons]
  · simp [keySum, h, List.filter_cons]

theorem keySum_append (L1 L2 : List (UKey × CatCounters)) (k : UKey) :
    keySum (L1 ++ L2) k = keySum L1 k + keySum L2 k := by
  simp [keySum, List.filter_append, List.sum_append]

theorem keySum_perm {L L' : List (UKey × CatCounters)} (h : L.Perm L')
    (k : UKey) : keySum L k = keySum L' k :=
  List.Perm.sum_eq ((h.filter _).map _)

theorem aggLookup_dsetdefault_owner (u : Dict (Dict (Dict CatCounters)))
    (o : String) (k : UKey) :
    aggLookup (dsetdefault u o []) k = aggLookup u k := by
  unfold aggLookup
  rw [dget_dsetdefault]
  by_cases h : k.1 = o
  · rw [if_pos h, h]
    cases hc : dget u o
    · simp [dget]
    · simp
  · rw [if_neg h]

theorem aggLookup_ensure_bn (u : Dict (Dict (Dict CatCounters)))
    (o bn : String) (k : UKey) :
    aggLookup (dmodify u o fun bd => dsetdefault bd bn []) k = aggLookup u k := by
  unfold aggLookup
  rw [dget_dmodify]
  by_cases h : k.1 = o
  · rw [if_pos h, h]
    cases hc : dget u o with
    | none => simp
    | some bd =>
      simp only [Option.map_some', Option.getD_some]
      rw [dget_dsetdefault]
      by_cases h2 : k.2.1 = bn
      · rw [if_pos h2, h2]
        cases hcc : dget bd bn
        · simp [dget]
        · simp
      · rw [if_neg h2]
  · rw [if_neg h]

theorem keySum_cons2 (p1 : UKey) (p2 : CatCounters)
    (L : List (UKey × CatCounters)) (k : UKey) :
    keySum ((p1, p2) :: L) k = (if p1 = k then p2 else 0) + keySum L k :=
  keySum_cons (p1, p2) L k

theorem aggLookup_updCat (o bn : String) (u : Dict (Dict (Dict CatCounters)))
    (c : CategoryRec) (k : UKey) (bd : Dict (Dict CatCounters))
    (cd : Dict CatCounters) (h1 : dget u o = some bd) (h2 : dget bd bn = some cd) :
    aggLookup (updCat o bn u c) k =
      (if k = (o, bn, c.category) then aggLookup u k + c.counters
       else aggLookup u k) := by
  obtain ⟨k1, k2, k3⟩ := k
  show (dget ((dget ((dget (dmodify u o _) k1).getD []) k2).getD []) k3).getD 0 = _
  rw [dget_dmodify]
  by_cases e1 : k1 = o
  · rw [if_pos e1, e1, h1]
    simp only [Option.map_some', Option.getD_some]
    rw [dget_dmodify]
    by_cases e2 : k2 = bn
    · rw [if_pos e2, e2, h2]
      simp only [Option.map_some', Option.getD_some]
      have hru : aggLookup u ((o : String), bn, k3) = (dget cd k3).getD 0 := by
        show (dget ((dget ((dget u o).getD []) bn).getD []) k3).getD 0 = _
        rw [h1]
        simp only [Option.getD_some]
        rw [h2]
        simp only [Option.getD_some]
      rw [dget_dmodify]
      by_cases e3 : k3 = c.category
      · rw [if_pos e3, dget_dsetdefault, if_pos rfl,
          if_pos (show ((o : String), bn, k3) = (o, bn, c.category) by rw [e3]),
          hru, e3]
        simp only [Option.map_some', Option.getD_some]
      · rw [if_neg e3, dget_dsetdefault, if_neg e3,
          if_neg (show ¬(((o : String), bn, k3) = (o, bn, c.category)) from
            fun hh => e3 (congrArg (fun p => p.2.2) hh)),
          hru]
    · rw [if_neg e2,
        if_neg (show ¬(((o : String), k2, k3) = (o, bn, c.category)) from
          fun hh => e2 (congrArg (fun p => p.2.1) hh))]
      show _ = (dget ((dget ((dget u o).getD []) k2).getD []) k3).getD 0
      rw [h1]
      simp only [Option.getD_some]
  · rw [if_neg e1,
      if_neg (show ¬(((k1 : String), k2, k3) = (o, bn, c.category)) from
        fun hh => e1 (congrArg (fun p => p.1) hh))]
    rfl

theorem dget_updCat_pres (o bn : String) (u : Dict (Dict (Dict CatCounters)))
    (c : CategoryRec) (bd : Dict (Dict CatCounters)) (cd : Dict CatCounters)
    (h1 : dget u o = some bd) (h2 : dget bd bn = some cd) :
    ∃ bd2 cd2, dget (updCat o bn u c) o = some bd2 ∧ dget bd2 bn = some cd2 := by
  refine ⟨dmodify bd bn fun cd =>
      dmodify (dsetdefault cd c.category 0) c.category fun ctr => ctr + c.counters,
    dmodify (dsetdefault cd c.category 0) c.category fun ctr => ctr + c.counters,
    ?_, ?_⟩
  · unfold updCat
    rw [dget_dmodify, if_pos rfl, h1]
    rfl
  · rw [dget_dmodify, if_pos rfl, h2]
    rfl

theorem aggLookup_foldl_updCat (o bn : String) (cats : List CategoryRec) :
    ∀ (u : Dict (Dict (Dict CatCounters))) (bd : Dict (Dict CatCounters))
      (cd : Dict CatCounters), dget u o = some bd → dget bd bn = some cd →
      ∀ k, aggLookup (cats.foldl (updCat o bn) u) k =
        aggLookup u k +
          keySum (cats.map fun c => (((o, bn, c.category) : UKey), c.counters)) k := by
  induction cats with
  | nil =>
    intro u bd cd h1 h2 k
    simp [keySum_nil]
  | cons c rest ih =>
    intro u bd cd h1 h2 k
    rw [List.foldl_cons, List.map_cons, keySum_cons2]
    obtain ⟨bd2, cd2, hp1, hp2⟩ := dget_updCat_pres o bn u c bd cd h1 h2
    rw [ih (updCat o bn u c) bd2 cd2 hp1 hp2 k,
      aggLookup_updCat o bn u c k bd cd h1 h2]
    by_cases hk : k = (o, bn, c.category)
    · rw [if_pos hk, if_pos hk.symm, add_assoc]
    · rw [if_neg hk, if_neg (fun hh => hk hh.symm), zero_add]

theorem except_bind_ok {α β : Type} (a : α) (f : α → Except PyErr β) :
    (Except.ok a >>= f) = f a := rfl

theorem except_bind_error {α β : Type} (e : PyErr) (f : α → Except PyErr β) :
    ((Except.error e : Except PyErr α) >>= f) = Except.error e := rfl

theorem dget_foldl_updCat_pres (o bn : String) (cats : List CategoryRec) :
    ∀ (u : Dict (Dict (Dict CatCounters))) (bd : Dict (Dict CatCounters))
      (cd : Dict CatCounters), dget u o = some bd → dget bd bn = some cd →
      ∃ bd2 cd2, dget (cats.foldl (updCat o bn) u) o = some bd2 ∧
        dget bd2 bn = some cd2 := by
  induction cats with
  | nil =>
    intro u bd cd h1 h2
    exact ⟨bd, cd, h1, h2⟩
  | cons c rest ih =>
    intro u bd cd h1 h2
    obtain ⟨bd2, cd2, hp1, hp2⟩ := dget_updCat_pres o bn u c bd cd h1 h2
    exact ih _ bd2 cd2 hp1 hp2

theorem aggLookup_getUsageBin (toggle : Bool) (o : String) (b : UsageBin)
    (u u2 : Dict (Dict (Dict CatCounters))) (bd : Dict (Dict CatCounters))
    (h1 : dget u o = some bd)
    (h : getUsageBin toggle o u b = Except.ok u2) :
    (∃ bd2, dget u2 o = some bd2) ∧
    (∀ k, aggLookup u2 k = aggLookup u k + keySum (keptBinContribs toggle o b) k) := by
  by_cases hs : skipBucket toggle b.categories
  · simp only [getUsageBin, if_pos hs] at h
    rw [Except.ok.injEq] at h
    subst h
    refine ⟨⟨bd, h1⟩, fun k => ?_⟩
    simp only [keptBinContribs, if_pos hs, keySum_nil, add_zero]
  · simp only [getUsageBin, if_neg hs] at h
    rcases hcats : b.categories with _ | cats
    · rw [hcats] at h
      exact Except.noConfusion h
    · rw [hcats] at h
      rw [hcats] at hs
      rw [Except.ok.injEq] at h
      subst h
      have hpre1 : dget (dmodify u o fun bd => dsetdefault bd (binKeyName b) []) o =
          some (dsetdefault bd (binKeyName b) []) := by
        rw [dget_dmodify, if_pos rfl, h1]
        rfl
      have hpre2 : dget (dsetdefault bd (binKeyName b) []) (binKeyName b) =
          some ((dget bd (binKeyName b)).getD []) := by
        rw [dget_dsetdefault, if_pos rfl]
      refine ⟨?_, fun k => ?_⟩
      · obtain ⟨bd2, cd2, hq1, hq2⟩ :=
          dget_foldl_updCat_pres o (binKeyName b) cats _ _ _ hpre1 hpre2
        exact ⟨bd2, hq1⟩
      · rw [aggLookup_foldl_updCat o (binKeyName b) cats _ _ _ hpre1 hpre2 k,
          aggLookup_ensure_bn]
        simp only [keptBinContribs, if_neg hs, hcats, Option.getD_some]

theorem aggLookup_bins (toggle : Bool) (o : String) (bins : List UsageBin) :
    ∀ (u u2 : Dict (Dict (Dict CatCounters))) (bd : Dict (Dict CatCounters)),
      dget u o = some bd →
      bins.foldlM (getUsageBin toggle o) u = Except.ok u2 →
      (∃ bd2, dget u2 o = some bd2) ∧
      (∀ k, aggLookup u2 k =
        aggLookup u k + keySum (bins.flatMap (keptBinContribs toggle o)) k) := by
  induction bins with
  | nil =>
    intro u u2 bd h1 h
    rw [List.foldlM_nil] at h
    injection h with h
    subst h
    exact ⟨⟨bd, h1⟩, fun k => by simp [List.flatMap_nil, keySum_nil]⟩
  | cons b rest ih =>
    intro u u2 bd h1 h
    rw [List.foldlM_cons] at h
    cases hb : getUsageBin toggle o u b with
    | error err =>
      rw [hb, except_bind_error] at h
      exact Except.noConfusion h
    | ok u1 =>
      rw [hb, except_bind_ok] at h
      obtain ⟨⟨bd1, hpres1⟩, heq1⟩ := aggLookup_getUsageBin toggle o b u u1 bd h1 hb
      obtain ⟨hex2, heq2⟩ := ih u1 u2 bd1 hpres1 h
      refine ⟨hex2, fun k => ?_⟩
      rw [heq2 k, heq1 k, List.flatMap_cons, keySum_append, add_assoc]

theorem aggLookup_getUsageEntry (toggle : Bool) (e : UsageEntry)
    (u u2 : Dict (Dict (Dict CatCounters)))
    (h : getUsageEntry toggle u e = Except.ok u2) :
    ∀ k, aggLookup u2 k = aggLookup u k + keySum (entryContribs toggle e) k := by
  intro k
  simp only [getUsageEntry] at h
  cases hx : extractId e.owner e.user with
  | error err =>
    rw [hx, except_bind_error] at h
    exact Except.noConfusion h
  | ok o =>
    rw [hx, except_bind_ok] at h
    rcases hbk : e.buckets with _ | bins
    · rw [hbk] at h
      exact Except.noConfusion h
    · rw [hbk] at h
      have hpre : dget (dsetdefault u o []) o = some ((dget u o).getD []) := by
        rw [dget_dsetdefault, if_pos rfl]
      obtain ⟨_, heq⟩ := aggLookup_bins toggle o bins (dsetdefault u o []) u2 _ hpre h
      rw [heq k, aggLookup_dsetdefault_owner]
      simp only [entryContribs, hx, hbk, Option.getD_some]

theorem aggLookup_entries (toggle : Bool) (l : List UsageEntry) :
    ∀ u u2, l.foldlM (getUsageEntry toggle) u = Except.ok u2 →
      ∀ k, aggLookup u2 k = aggLookup u k + keySum (usageContribs toggle l) k := by
  induction l with
  | nil =>
    intro u u2 h k
    rw [List.foldlM_nil] at h
    injection h with h
    subst h
    simp [usageContribs, keySum_nil]
  | cons e rest ih =>
    intro u u2 h k
    rw [List.foldlM_cons] at h
    cases he : getUsageEntry toggle u e with
    | error err =>
      rw [he, except_bind_error] at h
      exact Except.noConfusion h
    | ok u1 =>
      rw [he, except_bind_ok] at h
      rw [ih u1 u2 h k, aggLookup_getUsageEntry toggle e u u1 he k,
        show usageContribs toggle (e :: rest) =
            entryContribs toggle e ++ usageContribs toggle rest from by
          simp [usageContribs],
        keySum_append, add_assoc]

theorem usageContribs_perm (toggle : Bool) {l l2 : List UsageEntry}
    (h : l.Perm l2) :
    (usageContribs toggle l).Perm (usageContribs toggle l2) :=
  List.Perm.flatten (h.map (entryContribs toggle))

/-- Claim C1: When a run of the usage aggregator over the fetched entries
succeeds, the aggregated `Counter` at each (owner, bucket, category) key
equals the field-wise sum (ops, successful_ops, bytes_sent, bytes_received)
of the contributions of every ingested bin carrying that key — bins sharing a
key are merged by summation, never overwritten — and any permutation of the
input entries that also succeeds produces the very same counter map. -/
theorem claim_C1 (toggle : Bool) (l l2 : List UsageEntry)
    (u u2 : Dict (Dict (Dict CatCounters)))
    (h : l.foldlM (getUsageEntry toggle) ([] : Dict (Dict (Dict CatCounters))) =
      Except.ok u)
    (hp : l2.Perm l)
    (h2 : l2.foldlM (getUsageEntry toggle) ([] : Dict (Dict (Dict CatCounters))) =
      Except.ok u2) :
    (∀ k, aggLookup u k = keySum (usageContribs toggle l) k) ∧
    (∀ k, aggLookup u2 k = aggLookup u k) := by
  have hu := aggLookup_entries toggle l [] u h
  have hu2 := aggLookup_entries toggle l2 [] u2 h2
  have hzero : ∀ k, aggLookup ([] : Dict (Dict (Dict CatCounters))) k = 0 :=
    fun k => rfl
  constructor
  · intro k
    rw [hu k, hzero k, zero_add]
  · intro k
    rw [hu k, hu2 k, hzero k, keySum_perm (usageContribs_perm toggle hp) k,
      zero_add]

/-- Scenario A bins: the same owner/bucket/category split across two entries
with ops 10 and 5. -/
def mergeEntryA : UsageEntry :=
  ⟨some "o", none, some [⟨"photos", some "o", none,
    some [⟨"get_obj", 10, 8, 100, 200⟩]⟩]⟩

def mergeEntryB : UsageEntry :=
  ⟨some "o", none, some [⟨"photos", some "o", none,
    some [⟨"get_obj", 5, 2, 50, 70⟩]⟩]⟩

/-- The aggregate both orders of scenario A's bins produce: ops 10+5=15 and
the other three counters likewise summed field-wise. -/
def mergedDict : Dict (Dict (Dict CatCounters)) :=
  [("o", [("photos", [("get_obj", ⟨15, 10, 150, 270⟩)])])]

/-- Witness for C1 at scenario A: both hypotheses hold by computation and the
merged counters are the field-wise sums in either entry order. -/
theorem claim_C1_witness :
    (∀ k, aggLookup mergedDict k =
      keySum (usageContribs true [mergeEntryA, mergeEntryB]) k) ∧
    (∀ k, aggLookup mergedDict k = aggLookup mergedDict k) :=
  claim_C1 true [mergeEntryA, mergeEntryB] [mergeEntryB, mergeEntryA]
    mergedDict mergedDict rfl (by decide) rfl
